import Mathlib

/-!
# Verification of the `electron-pos-printer` content model, layout engine,
# receipt builder and ESC/POS encoder

Shallow embedding of the repository's core (TypeScript) into Lean 4.

Modelling conventions:
* JavaScript strings are modelled as lists of characters (`Str := List Char`);
  `String.prototype.length`, `substring`, `split`, `trim`, `repeat` become the
  corresponding list operations.
* JavaScript numbers are modelled as `Int` where the source only ever holds
  integral values (widths, sizes, counts) and as `ℚ` for currency amounts;
  `Math.floor` on a rational becomes `Rat.floor` / `Int.fdiv`.
* `Buffer`s are modelled as `List Nat` of byte values; `Buffer.from([n])`
  wraps its argument modulo 256 (`toByte`); `Buffer.concat` is `List.flatten`.
* Optional (`?:`) fields become `Option`; JavaScript truthiness of a string is
  non-emptiness, of a number is non-zeroness, of an object/array is presence.
-/

/-- JavaScript strings, modelled as lists of characters. -/
abbrev Str := List Char

/-- `Buffer.from([n])` stores `n` modulo 256 (JavaScript `Buffer` semantics). -/
def toByte (n : Int) : Nat := (n % 256).toNat

/-- UTF-8 encoding of a single code point (what `Buffer.from(s, 'utf8')`
produces per character). -/
def utf8Char (c : Char) : List Nat :=
  let n := c.toNat
  if n < 0x80 then [n]
  else if n < 0x800 then [0xC0 + n / 0x40, 0x80 + n % 0x40]
  else if n < 0x10000 then
    [0xE0 + n / 0x1000, 0x80 + n / 0x40 % 0x40, 0x80 + n % 0x40]
  else
    [0xF0 + n / 0x40000, 0x80 + n / 0x1000 % 0x40, 0x80 + n / 0x40 % 0x40,
      0x80 + n % 0x40]

/-- `Buffer.from(text, 'utf8')` as a byte list. -/
def utf8 (s : Str) : List Nat := s.flatMap utf8Char

/-- `Buffer.from(text, 'ascii')` keeps the low 7 bits of each char code. -/
def asciiBytes (s : Str) : List Nat := s.map (fun c => c.toNat % 128)

/-! ## Content model (`src/types/index.ts`) -/

/-- `type PaperWidth = 58 | 80` -/
inductive PaperWidth where
  | w58
  | w80
deriving DecidableEq, Repr

/-- `type TextAlign = 'left' | 'center' | 'right'` -/
inductive TextAlign where
  | left
  | center
  | right
deriving DecidableEq, Repr

/-- `type FontSize = 'normal' | 'double-height' | 'double-width' | 'double'` -/
inductive FontSize where
  | normal
  | doubleHeight
  | doubleWidth
  | double
deriving DecidableEq, Repr

/-- `interface TextStyle` — all fields optional. -/
structure TextStyle where
  bold : Option Bool := none
  underline : Option Bool := none
  align : Option TextAlign := none
  size : Option FontSize := none
  invert : Option Bool := none
deriving DecidableEq, Repr

/-- A table column's `width?: number | string` field: absent (flex), a numeric
width, or a percentage string `"NN%"` (`parseInt` reads the leading integer).
Plain numeric strings behave exactly like numbers in both implementations, so
they are folded into `fixed`. -/
inductive ColWidth where
  | flex
  | fixed (n : Int)
  | pct (p : Int)
deriving DecidableEq, Repr

/-- `interface TableColumn` -/
structure TableColumn where
  text : Str
  width : ColWidth := .flex
  align : Option TextAlign := none
  bold : Option Bool := none
deriving DecidableEq, Repr

/-- `type BarcodeType` — the nine supported symbology tags. -/
inductive BarcodeType where
  | upcA
  | upcE
  | ean13
  | ean8
  | code39
  | itf
  | codabar
  | code93
  | code128
deriving DecidableEq, Repr

/-- Barcode HRI text position `'above' | 'below' | 'both' | 'none'`. -/
inductive TextPos where
  | above
  | below
  | both
  | none
deriving DecidableEq, Repr

/-- `interface BarcodeOptions` (as stored inside a content item; the builder
accepts a `Partial` of it, hence every field is optional except `type`,
which itself is optional at the builder's interface — see `BarcodeInput`). -/
structure BarcodeOptions where
  type : BarcodeType
  width : Option Int := Option.none
  height : Option Int := Option.none
  showText : Option Bool := Option.none
  textPosition : Option TextPos := Option.none
  align : Option TextAlign := Option.none
deriving DecidableEq, Repr

/-- `Partial<BarcodeOptions>` as accepted by `ReceiptBuilder.barcode`. -/
structure BarcodeInput where
  type : Option BarcodeType := Option.none
  width : Option Int := Option.none
  height : Option Int := Option.none
  showText : Option Bool := Option.none
  textPosition : Option TextPos := Option.none
  align : Option TextAlign := Option.none
deriving DecidableEq, Repr

/-- QR error correction level `'L' | 'M' | 'Q' | 'H'`. -/
inductive QRErrorCorrection where
  | L
  | M
  | Q
  | H
deriving DecidableEq, Repr

/-- `interface QRCodeOptions` -/
structure QRCodeOptions where
  size : Option Int := Option.none
  errorCorrection : Option QRErrorCorrection := Option.none
  align : Option TextAlign := Option.none
deriving DecidableEq, Repr

/-- `interface ImageOptions` -/
structure ImageOptions where
  width : Option Int := Option.none
  align : Option TextAlign := Option.none
deriving DecidableEq, Repr

/-- `type PrintContent` — the tagged union of content items.  The extra
`unrecognized` constructor stands for any runtime value whose `type` tag lies
outside the closed set (possible in JavaScript, handled by the encoder's
`default:` branch). -/
inductive PrintContent where
  | text (value : Str) (style : Option TextStyle)
  | line (character : Option Str)
  | table (rows : List (List TableColumn))
  | barcode (value : Str) (options : BarcodeOptions)
  | qrcode (value : Str) (options : Option QRCodeOptions)
  | image (source : Str) (options : Option ImageOptions)
  | feed (lines : Option Int)
  | cut (isPartial : Option Bool)
  | unrecognized
deriving DecidableEq, Repr

/-- `symbolPosition: 'before' | 'after'` -/
inductive SymbolPosition where
  | before
  | after
deriving DecidableEq, Repr

/-- `interface CurrencyOptions` -/
structure CurrencyOptions where
  symbol : Option Str := Option.none
  decimals : Option Nat := Option.none
  thousandSeparator : Option Str := Option.none
  decimalSeparator : Option Str := Option.none
  symbolPosition : Option SymbolPosition := Option.none
deriving DecidableEq, Repr

/-- The `DEFAULTS` constant object. -/
def DEFAULTS_CHARS_PER_LINE_58 : Nat := 32

/-- `DEFAULTS.CHARS_PER_LINE_80` -/
def DEFAULTS_CHARS_PER_LINE_80 : Nat := 48

/-- `DEFAULTS.BARCODE_WIDTH` -/
def DEFAULTS_BARCODE_WIDTH : Int := 2

/-- `DEFAULTS.BARCODE_HEIGHT` -/
def DEFAULTS_BARCODE_HEIGHT : Int := 100

/-- `DEFAULTS.QR_SIZE` -/
def DEFAULTS_QR_SIZE : Int := 6

/-- `DEFAULTS.FEED_LINES` -/
def DEFAULTS_FEED_LINES : Int := 3

/-- `DEFAULTS.LINE_CHARACTER` -/
def DEFAULTS_LINE_CHARACTER : Str := ['-']

/-! ## Formatting / layout engine (`src/utils/format.ts`) -/

/-- The fully-defaulted currency options (`defaultCurrencyOptions` merged with
the caller's options via object spread: a present field wins, an absent field
falls back to the default). -/
structure MergedCurrency where
  symbol : Str
  decimals : Nat
  thousandSeparator : Str
  decimalSeparator : Str
  symbolPosition : SymbolPosition
deriving DecidableEq, Repr

/-- `{ ...defaultCurrencyOptions, ...options }` -/
def mergeCurrency (options : CurrencyOptions) : MergedCurrency where
  symbol := options.symbol.getD []
  decimals := options.decimals.getD 2
  thousandSeparator := options.thousandSeparator.getD [' ']
  decimalSeparator := options.decimalSeparator.getD ['.']
  symbolPosition := options.symbolPosition.getD .after

/-- Decimal representation of a natural number (JS `Number.prototype.toString`
for non-negative integral values). -/
def natRepr (n : Nat) : Str := Nat.toDigits 10 n

/-- Decimal representation of an integer. -/
def intRepr (n : Int) : Str :=
  if n < 0 then '-' :: natRepr n.natAbs else natRepr n.toNat

/-- Split a character list into chunks of three (used from the right end to
model the `\B(?=(\d{3})+(?!\d))` thousands-grouping regex). -/
def chunks3 : Str → List Str
  | [] => []
  | [a] => [[a]]
  | [a, b] => [[a, b]]
  | a :: b :: c :: rest => [a, b, c] :: chunks3 rest

/-- `intPart.replace(/\B(?=(\d{3})+(?!\d))/g, sep)`: insert `sep` between
digit groups of three, counted from the right, never before the first digit. -/
def group3 (sep : Str) (s : Str) : Str :=
  (List.intercalate sep.reverse (chunks3 s.reverse)).reverse

/-- `Math.abs(amount).toFixed(d)` on an exact rational: the rounded value
`⌊|amount|·10^d + 1/2⌋` as a natural number of `10^(-d)` units.  (JavaScript
`toFixed` rounds the decimal expansion of the double to `d` places; on exact
inputs this is round-half-up on the magnitude.)  Written on the reduced
numerator and denominator so that it evaluates by kernel reduction:
`⌊|n|/den·10^d + 1/2⌋ = (2·|n|·10^d + den) / (2·den)` in natural division. -/
def toFixedUnits (amount : ℚ) (d : Nat) : Nat :=
  (amount.num.natAbs * 10 ^ d * 2 + amount.den) / (2 * amount.den)

/-- Left-pad a digit string with zeros up to length `d` (the fractional part
of `toFixed` always has exactly `d` digits). -/
def padZeros (d : Nat) (s : Str) : Str :=
  List.replicate (d - s.length) '0' ++ s

/-- The digits part of `formatCurrency` before the sign is applied:
`fixed.split('.')` yields the integer digits and (for `decimals > 0`)
exactly-`decimals` fractional digits of `toFixedUnits`; for `decimals = 0`
there is no decimal part and the `decPart ? … : …` test picks the bare
(grouped) integer part. -/
def currencyUnsigned (amount : ℚ) (options : CurrencyOptions) : Str :=
  let opts := mergeCurrency options
  let units := toFixedUnits amount opts.decimals
  let intPart := natRepr (units / 10 ^ opts.decimals)
  let decPart := padZeros opts.decimals (natRepr (units % 10 ^ opts.decimals))
  let formattedInt := group3 opts.thousandSeparator intPart
  if opts.decimals = 0 then formattedInt
  else formattedInt ++ opts.decimalSeparator ++ decPart

/-- The `result` value of `formatCurrency` after the `amount < 0` step and
before symbol placement. -/
def currencyCore (amount : ℚ) (options : CurrencyOptions) : Str :=
  if amount < 0 then '-' :: currencyUnsigned amount options
  else currencyUnsigned amount options

/-- `formatCurrency` (`src/utils/format.ts`): the digits, then the sign, then
the symbol (`if (opts.symbol)` — the empty default symbol is falsy). -/
def formatCurrency (amount : ℚ) (options : CurrencyOptions) : Str :=
  let opts := mergeCurrency options
  let result := currencyCore amount options
  if opts.symbol ≠ [] then
    if opts.symbolPosition = .before then opts.symbol ++ result
    else result ++ ' ' :: opts.symbol
  else result

/-- The whitespace class removed by JavaScript `String.prototype.trim`
(space, tab, LF, VT, FF, CR, NBSP, BOM cover every character the source can
meet here). -/
def isJsSpace (c : Char) : Bool :=
  (9 ≤ c.toNat && c.toNat ≤ 13) || c.toNat = 32 || c.toNat = 160 ||
    c.toNat = 65279

/-- `String.prototype.trim`. -/
def jsTrim (s : Str) : Str :=
  ((s.dropWhile isJsSpace).reverse.dropWhile isJsSpace).reverse

/-- `String.prototype.split(sep)` for a single-character separator:
`''.split(' ') = ['']`, separators delimit (possibly empty) fields. -/
def jsSplitCh (sep : Char) : Str → List Str
  | [] => [[]]
  | c :: cs =>
    if c = sep then [] :: jsSplitCh sep cs
    else
      match jsSplitCh sep cs with
      | [] => [[c]]
      | w :: ws => (c :: w) :: ws

/-- The hard-split loop of `wordWrap` for a word longer than `maxWidth`:
`for (i = 0; i < word.length; i += maxWidth)` pushes the full
`maxWidth`-sized chunks while `i + maxWidth < word.length` and leaves the
final (possibly full-width) chunk as the carried `currentLine`.  The source
loop does not terminate for `maxWidth = 0` (the step is zero); the model
returns the word unsplit in that out-of-domain case. -/
def hardSplit (n : Nat) (l : Str) : List Str × Str :=
  if l.length ≤ n ∨ n = 0 then ([], l)
  else
    let r := hardSplit n (l.drop n)
    (l.take n :: r.1, r.2)
termination_by l.length
decreasing_by simp at *; omega

/-- One iteration of the `for (const word of words)` loop of `wordWrap`,
acting on the state `(lines, currentLine)`. -/
def processWord (maxWidth : Nat) (st : List Str × Str) (w : Str) :
    List Str × Str :=
  let lines := st.1
  let cur := st.2
  if maxWidth < w.length then
    let lines := if cur ≠ [] then lines ++ [jsTrim cur] else lines
    let r := hardSplit maxWidth w
    (lines ++ r.1, r.2)
  else if (jsTrim (cur ++ ' ' :: w)).length ≤ maxWidth then
    (lines, jsTrim (cur ++ ' ' :: w))
  else if cur ≠ [] then (lines ++ [jsTrim cur], w)
  else (lines, w)

/-- `wordWrap` (`src/utils/format.ts`). -/
def wordWrap (text : Str) (maxWidth : Nat) : List Str :=
  if text.length ≤ maxWidth then [text]
  else
    let st := (jsSplitCh ' ' text).foldl (processWord maxWidth) ([], [])
    if st.2 ≠ [] then st.1 ++ [jsTrim st.2] else st.1

/-- One loop iteration of the first pass of `calculateColumnWidths`
(`src/utils/format.ts`) over the state `(widths, remainingWidth,
flexColumns)`; a flex column pushes the placeholder `-1`. -/
def fcStep (totalWidth : Int) (st : List Int × Int × Nat) (col : ColWidth) :
    List Int × Int × Nat :=
  match col with
  | .flex => (st.1 ++ [-1], st.2.1, st.2.2 + 1)
  | .pct p =>
    let w := Int.fdiv (totalWidth * p) 100
    (st.1 ++ [w], st.2.1 - w, st.2.2)
  | .fixed n => (st.1 ++ [n], st.2.1 - n, st.2.2)

/-- First pass of `calculateColumnWidths` (`src/utils/format.ts`). -/
def fcPass1 (totalWidth : Int) (columns : List ColWidth) :
    List Int × Int × Nat :=
  columns.foldl (fcStep totalWidth) ([], totalWidth, 0)

/-- `calculateColumnWidths` (`src/utils/format.ts`): second pass replaces
every `-1` entry by `floor(remainingWidth / flexColumns)` when at least one
flex column exists. -/
def calculateColumnWidths (columns : List ColWidth) (totalWidth : Int) :
    List Int :=
  let st := fcPass1 totalWidth columns
  if st.2.2 > 0 then
    let flexWidth := Int.fdiv st.2.1 st.2.2
    st.1.map (fun w => if w = -1 then flexWidth else w)
  else st.1

/-- `getCharsPerLine` (`src/utils/format.ts`). -/
def getCharsPerLine : PaperWidth → Nat
  | .w58 => DEFAULTS_CHARS_PER_LINE_58
  | .w80 => DEFAULTS_CHARS_PER_LINE_80

/-- A JavaScript `Date`, reduced to the components `formatDate` reads
(`getMonth` is 0-based). -/
structure JSDate where
  fullYear : Int
  month0 : Int
  day : Int
  hours : Int
  minutes : Int
  seconds : Int
deriving DecidableEq, Repr

/-- `n.toString().padStart(2, '0')` -/
def pad2 (s : Str) : Str :=
  List.replicate (2 - s.length) '0' ++ s

/-- `String.prototype.replace` with a string pattern: replace the first
occurrence only. -/
def replaceFirst (pat rep : Str) : Str → Str
  | [] => if pat.isEmpty then rep else []
  | c :: cs =>
    if pat.isPrefixOf (c :: cs) then rep ++ (c :: cs).drop pat.length
    else c :: replaceFirst pat rep cs

/-- `formatDate` (`src/utils/format.ts`): token substitution over the
pattern, in the object-literal insertion order `yyyy, MM, dd, HH, mm, ss`. -/
def formatDate (date : JSDate) (fmt : Str) : Str :=
  let reps : List (Str × Str) :=
    [("yyyy".data, intRepr date.fullYear),
     ("MM".data, pad2 (intRepr (date.month0 + 1))),
     ("dd".data, pad2 (intRepr date.day)),
     ("HH".data, pad2 (intRepr date.hours)),
     ("mm".data, pad2 (intRepr date.minutes)),
     ("ss".data, pad2 (intRepr date.seconds))]
  reps.foldl (fun acc pr => replaceFirst pr.1 pr.2 acc) fmt

/-- The default pattern `'dd.MM.yyyy HH:mm'`. -/
def defaultDateFormat : Str := "dd.MM.yyyy HH:mm".data

/-! ## ESC/POS encoder (`src/commands/escpos-builder.ts`) -/

/-- `CMD.INIT` = ESC `@` -/
def CMD_INIT : List Nat := [0x1b, 0x40]

/-- `CMD.LF` -/
def CMD_LF : List Nat := [0x0a]

/-- `CMD.ALIGN_LEFT` -/
def CMD_ALIGN_LEFT : List Nat := [0x1b, 0x61, 0x00]

/-- `CMD.ALIGN_CENTER` -/
def CMD_ALIGN_CENTER : List Nat := [0x1b, 0x61, 0x01]

/-- `CMD.ALIGN_RIGHT` -/
def CMD_ALIGN_RIGHT : List Nat := [0x1b, 0x61, 0x02]

/-- `CMD.BOLD_ON` -/
def CMD_BOLD_ON : List Nat := [0x1b, 0x45, 0x01]

/-- `CMD.BOLD_OFF` -/
def CMD_BOLD_OFF : List Nat := [0x1b, 0x45, 0x00]

/-- `CMD.UNDERLINE_ON` -/
def CMD_UNDERLINE_ON : List Nat := [0x1b, 0x2d, 0x01]

/-- `CMD.UNDERLINE_OFF` -/
def CMD_UNDERLINE_OFF : List Nat := [0x1b, 0x2d, 0x00]

/-- `CMD.INVERT_ON` -/
def CMD_INVERT_ON : List Nat := [0x1d, 0x42, 0x01]

/-- `CMD.INVERT_OFF` -/
def CMD_INVERT_OFF : List Nat := [0x1d, 0x42, 0x00]

/-- `CMD.SIZE_NORMAL` -/
def CMD_SIZE_NORMAL : List Nat := [0x1b, 0x21, 0x00]

/-- `CMD.SIZE_DOUBLE_HEIGHT` -/
def CMD_SIZE_DOUBLE_HEIGHT : List Nat := [0x1b, 0x21, 0x10]

/-- `CMD.SIZE_DOUBLE_WIDTH` -/
def CMD_SIZE_DOUBLE_WIDTH : List Nat := [0x1b, 0x21, 0x20]

/-- `CMD.SIZE_DOUBLE` -/
def CMD_SIZE_DOUBLE : List Nat := [0x1b, 0x21, 0x30]

/-- `CMD.CUT_PARTIAL` -/
def CMD_CUT_PARTIAL : List Nat := [0x1d, 0x56, 0x41, 0x00]

/-- `CMD.CUT_FULL` -/
def CMD_CUT_FULL : List Nat := [0x1d, 0x56, 0x00]

/-- `CMD.feed(n)` = ESC `d` with the count clamped to `[0, 255]`. -/
def CMD_feed (n : Int) : List Nat := [0x1b, 0x64, (min 255 (max 0 n)).toNat]

/-- `style?.align` -/
def styleAlign (style : Option TextStyle) : Option TextAlign :=
  style.bind TextStyle.align

/-- `style?.size` -/
def styleSize (style : Option TextStyle) : Option FontSize :=
  style.bind TextStyle.size

/-- Truthiness of `style?.bold`. -/
def styleBold (style : Option TextStyle) : Bool :=
  (style.bind TextStyle.bold).getD false

/-- Truthiness of `style?.underline`. -/
def styleUnderline (style : Option TextStyle) : Bool :=
  (style.bind TextStyle.underline).getD false

/-- Truthiness of `style?.invert`. -/
def styleInvert (style : Option TextStyle) : Bool :=
  (style.bind TextStyle.invert).getD false

/-- `buildTextESCPOS`: the imperative sequence of `buffers.push(...)` calls,
modelled by successive appends to the buffer list. -/
def buildTextESCPOS (text : Str) (style : Option TextStyle) :
    List (List Nat) :=
  let buffers : List (List Nat) := []
  let buffers := buffers ++
    [if styleAlign style = some .center then CMD_ALIGN_CENTER
     else if styleAlign style = some .right then CMD_ALIGN_RIGHT
     else CMD_ALIGN_LEFT]
  let buffers :=
    if styleSize style = some .double then buffers ++ [CMD_SIZE_DOUBLE]
    else if styleSize style = some .doubleHeight then
      buffers ++ [CMD_SIZE_DOUBLE_HEIGHT]
    else if styleSize style = some .doubleWidth then
      buffers ++ [CMD_SIZE_DOUBLE_WIDTH]
    else buffers
  let buffers := if styleBold style then buffers ++ [CMD_BOLD_ON] else buffers
  let buffers :=
    if styleUnderline style then buffers ++ [CMD_UNDERLINE_ON] else buffers
  let buffers :=
    if styleInvert style then buffers ++ [CMD_INVERT_ON] else buffers
  let buffers := buffers ++ [utf8 text] ++ [CMD_LF]
  let buffers := if styleBold style then buffers ++ [CMD_BOLD_OFF] else buffers
  let buffers :=
    if styleUnderline style then buffers ++ [CMD_UNDERLINE_OFF] else buffers
  let buffers :=
    if styleInvert style then buffers ++ [CMD_INVERT_OFF] else buffers
  let buffers :=
    if (styleSize style).isSome then buffers ++ [CMD_SIZE_NORMAL] else buffers
  buffers ++ [CMD_ALIGN_LEFT]

/-- `buildLineESCPOS`: `character || DEFAULTS.LINE_CHARACTER` (an empty
string is falsy), repeated `charsPerLine` times, then a line feed. -/
def buildLineESCPOS (character : Option Str) (charsPerLine : Nat) :
    List (List Nat) :=
  let char :=
    match character with
    | some (c :: cs) => c :: cs
    | _ => DEFAULTS_LINE_CHARACTER
  [utf8 (List.replicate charsPerLine char).flatten, CMD_LF]

/-- One loop iteration of the first pass of the encoder-private
`calculateColumnWidths` over the state `(widths, usedWidth, flexCount)`;
a flex column pushes `null` (here `none`). -/
def ecStep (totalWidth : Int) (st : List (Option Int) × Int × Nat)
    (col : TableColumn) : List (Option Int) × Int × Nat :=
  match col.width with
  | .flex => (st.1 ++ [Option.none], st.2.1, st.2.2 + 1)
  | .pct p =>
    let w := Int.fdiv (totalWidth * p) 100
    (st.1 ++ [some w], st.2.1 + w, st.2.2)
  | .fixed n => (st.1 ++ [some n], st.2.1 + n, st.2.2)

/-- First pass of the encoder-private `calculateColumnWidths`. -/
def ecPass1 (totalWidth : Int) (columns : List TableColumn) :
    List (Option Int) × Int × Nat :=
  columns.foldl (ecStep totalWidth) ([], 0, 0)

/-- The encoder-private `calculateColumnWidths` (`escpos-builder.ts`): second
pass replaces every `null` entry by `floor((total − used) / flexCount)`.
When `flexCount = 0` no `null` entry exists and the `getD` fallback is never
taken. -/
def calculateColumnWidthsEnc (columns : List TableColumn) (totalWidth : Int) :
    List Int :=
  let st := ecPass1 totalWidth columns
  if st.2.2 > 0 then
    let flexWidth := Int.fdiv (totalWidth - st.2.1) st.2.2
    st.1.map (fun w => w.getD flexWidth)
  else st.1.map (fun w => w.getD 0)

/-- The truncate-or-pad step for one table cell inside `buildTableESCPOS`. -/
def padCell (col : TableColumn) (width : Int) : Str :=
  let text := col.text
  if (text.length : Int) > width then text.take width.toNat
  else
    let padding := (width - text.length).toNat
    match col.align with
    | some .right => List.replicate padding ' ' ++ text
    | some .center =>
      let left := padding / 2
      List.replicate left ' ' ++ text ++ List.replicate (padding - left) ' '
    | _ => text ++ List.replicate padding ' '

/-- The composed text line for one table row. -/
def buildRowLine (row : List TableColumn) (charsPerLine : Nat) : Str :=
  let colWidths := calculateColumnWidthsEnc row charsPerLine
  ((row.zip colWidths).map (fun pr => padCell pr.1 pr.2)).flatten

/-- `buildTableESCPOS`: per row, the composed line wrapped in bold-on/off when
any column of the row is bold. -/
def buildTableESCPOS (rows : List (List TableColumn)) (charsPerLine : Nat) :
    List (List Nat) :=
  rows.flatMap (fun row =>
    let hasBold := row.any (fun col => col.bold.getD false)
    (if hasBold then [CMD_BOLD_ON] else []) ++
      [utf8 (buildRowLine row charsPerLine)] ++ [CMD_LF] ++
      (if hasBold then [CMD_BOLD_OFF] else []))

/-- The symbology code lookup table (`barcodeTypes`); the `?? 0x49` fallback
of the source is unreachable for the closed `BarcodeType`. -/
def barcodeTypeCode : BarcodeType → Nat
  | .upcA => 0x41
  | .upcE => 0x42
  | .ean13 => 0x43
  | .ean8 => 0x44
  | .code39 => 0x45
  | .itf => 0x46
  | .codabar => 0x47
  | .code93 => 0x48
  | .code128 => 0x49

/-- `buildBarcodeESCPOS`.  Note the height byte is `Math.min(255, height)`
with no lower clamp, while the width byte is clamped to `[2, 6]`. -/
def buildBarcodeESCPOS (value : Str) (options : BarcodeOptions) :
    List (List Nat) :=
  let height := options.height.getD DEFAULTS_BARCODE_HEIGHT
  let width := options.width.getD DEFAULTS_BARCODE_WIDTH
  let alignPart :=
    if options.align = some .center then [CMD_ALIGN_CENTER]
    else if options.align = some .right then [CMD_ALIGN_RIGHT]
    else []
  let hriPosition := options.textPosition.getD .below
  let hriCode : Nat :=
    match hriPosition with
    | .none => 0x00
    | .above => 0x01
    | .both => 0x03
    | .below => 0x02
  let typeCode := barcodeTypeCode options.type
  let framing :=
    if options.type = .code128 then
      [[0x1d, 0x6b, typeCode, toByte (value.length + 2), 0x7b, 0x42],
        asciiBytes value]
    else
      [[0x1d, 0x6b, typeCode, toByte value.length], asciiBytes value]
  alignPart ++
    [[0x1d, 0x68, toByte (min 255 height)]] ++
    [[0x1d, 0x77, toByte (min 6 (max 2 width))]] ++
    [[0x1d, 0x48, hriCode]] ++
    framing ++
    [CMD_LF, CMD_ALIGN_LEFT]

/-- The fixed "select model 2" command emitted by `buildQRCodeESCPOS`
(parameter byte `0x32`, the ASCII digit `'2'`). -/
def qrModelCmd : List Nat :=
  [0x1d, 0x28, 0x6b, 0x04, 0x00, 0x31, 0x41, 0x32, 0x00]

/-- `buildQRCodeESCPOS`. -/
def buildQRCodeESCPOS (value : Str) (options : Option QRCodeOptions) :
    List (List Nat) :=
  let size := (options.bind QRCodeOptions.size).getD DEFAULTS_QR_SIZE
  let errorLevel :=
    (options.bind QRCodeOptions.errorCorrection).getD .M
  let alignPart :=
    if options.bind QRCodeOptions.align = some .center then [CMD_ALIGN_CENTER]
    else if options.bind QRCodeOptions.align = some .right then
      [CMD_ALIGN_RIGHT]
    else []
  let errorCode : Nat :=
    match errorLevel with
    | .L => 0x30
    | .M => 0x31
    | .Q => 0x32
    | .H => 0x33
  let dataBytes := utf8 value
  let storeLen := dataBytes.length + 3
  let pL := storeLen % 256
  let pH := storeLen / 256 % 256
  alignPart ++
    [qrModelCmd] ++
    [[0x1d, 0x28, 0x6b, 0x03, 0x00, 0x31, 0x43,
      toByte (min 16 (max 1 size))]] ++
    [[0x1d, 0x28, 0x6b, 0x03, 0x00, 0x31, 0x45, errorCode]] ++
    [[0x1d, 0x28, 0x6b, pL, pH, 0x31, 0x50, 0x30]] ++
    [dataBytes] ++
    [[0x1d, 0x28, 0x6b, 0x03, 0x00, 0x31, 0x51, 0x30]] ++
    [CMD_LF, CMD_ALIGN_LEFT]

/-- `buildContentESCPOS`: dispatch on the content tag; the `default:` branch
(an unrecognized tag) yields no buffers at all. -/
def buildContentESCPOS (content : PrintContent) (charsPerLine : Nat) :
    List (List Nat) :=
  match content with
  | .text value style => buildTextESCPOS value style
  | .line character => buildLineESCPOS character charsPerLine
  | .table rows => buildTableESCPOS rows charsPerLine
  | .feed lines => [CMD_feed (lines.getD DEFAULTS_FEED_LINES)]
  | .cut isPartial =>
    [CMD_feed 3, if isPartial.getD false then CMD_CUT_PARTIAL else CMD_CUT_FULL]
  | .barcode value options => buildBarcodeESCPOS value options
  | .qrcode value options => buildQRCodeESCPOS value options
  | .image _ _ => [utf8 "[IMAGE]\n".data]
  | .unrecognized => []

/-- `buildESCPOSData`: initialise, then concatenate every item's buffers. -/
def buildESCPOSData (contents : List PrintContent)
    (paperWidth : PaperWidth := .w80) : List Nat :=
  let charsPerLine :=
    match paperWidth with
    | .w58 => DEFAULTS_CHARS_PER_LINE_58
    | .w80 => DEFAULTS_CHARS_PER_LINE_80
  (CMD_INIT :: contents.flatMap (fun c => buildContentESCPOS c charsPerLine)).flatten

/-! ## Command-table constants (`src/commands/index.ts`) -/

/-- `Commands.QRCODE.MODEL(model)`: the command-table function places the raw
`model` number (1 or 2) as the parameter byte. -/
def Commands_QRCODE_MODEL (model : Int) : List Nat :=
  [0x1d, 0x28, 0x6b, 0x04, 0x00, 0x31, 0x41, toByte model, 0x00]

/-- `Commands.BARCODE.HEIGHT(h)`: clamped to `[1, 255]`. -/
def Commands_BARCODE_HEIGHT (h : Int) : List Nat :=
  [0x1d, 0x68, toByte (min 255 (max 1 h))]

/-- `Commands.BARCODE.WIDTH(w)`: clamped to `[2, 6]`. -/
def Commands_BARCODE_WIDTH (w : Int) : List Nat :=
  [0x1d, 0x77, toByte (min 6 (max 2 w))]

/-! ## Receipt builder (`src/utils/receipt-builder.ts`) -/

/-- JavaScript `x || d` for an optional number: `0` is falsy, so an explicit
zero falls back to the default exactly like an absent value. -/
def jsOrNum (x : Option Int) (d : Int) : Int :=
  match x with
  | some n => if n = 0 then d else n
  | Option.none => d

/-- Truthiness of an optional string field (`undefined` and `''` are falsy). -/
def strTruthy : Option Str → Bool
  | some (_ :: _) => true
  | _ => false

/-- `ReceiptData['header']` -/
structure ReceiptHeader where
  title : Option Str := Option.none
  subtitle : Option Str := Option.none
  logo : Option Str := Option.none
  address : Option (List Str) := Option.none
  phone : Option Str := Option.none
deriving DecidableEq, Repr

/-- `interface ReceiptItem` -/
structure ReceiptItem where
  name : Str
  quantity : Int
  price : ℚ
  total : Option ℚ := Option.none
deriving DecidableEq, Repr

/-- `ReceiptData['totals']` -/
structure ReceiptTotals where
  subtotal : Option ℚ := Option.none
  tax : Option ℚ := Option.none
  discount : Option ℚ := Option.none
  total : ℚ
deriving DecidableEq, Repr

/-- `ReceiptData['payment']` -/
structure ReceiptPayment where
  method : Str
  amount : ℚ
  change : Option ℚ := Option.none
deriving DecidableEq, Repr

/-- `ReceiptData['meta']` -/
structure ReceiptMeta where
  orderNumber : Option Str := Option.none
  date : Option JSDate := Option.none
  cashier : Option Str := Option.none
  customer : Option Str := Option.none
deriving DecidableEq, Repr

/-- `interface ReceiptData` -/
structure ReceiptData where
  header : Option ReceiptHeader := Option.none
  items : List ReceiptItem
  totals : Option ReceiptTotals := Option.none
  payment : Option ReceiptPayment := Option.none
  footer : Option (List Str) := Option.none
  meta : Option ReceiptMeta := Option.none
deriving DecidableEq, Repr

/-- `class ReceiptBuilder` — its private mutable state. -/
structure ReceiptBuilder where
  contents : List PrintContent
  paperWidth : PaperWidth
  charsPerLine : Nat
  currencyOptions : CurrencyOptions
deriving DecidableEq, Repr

/-- `new ReceiptBuilder(paperWidth = DEFAULTS.PAPER_WIDTH)` -/
def ReceiptBuilder.init (paperWidth : PaperWidth := .w80) : ReceiptBuilder where
  contents := []
  paperWidth := paperWidth
  charsPerLine := getCharsPerLine paperWidth
  currencyOptions := {}

/-- `createReceipt(paperWidth?)` -/
def createReceipt (paperWidth : Option PaperWidth) : ReceiptBuilder :=
  ReceiptBuilder.init (paperWidth.getD .w80)

namespace ReceiptBuilder

/-- `text(value, style?)` -/
def text (b : ReceiptBuilder) (value : Str) (style : Option TextStyle) :
    ReceiptBuilder :=
  { b with contents := b.contents ++ [.text value style] }

/-- `textCenter(value, style?)` = `text(value, { ...style, align: 'center' })` -/
def textCenter (b : ReceiptBuilder) (value : Str)
    (style : Option TextStyle := Option.none) : ReceiptBuilder :=
  b.text value (some { style.getD {} with align := some .center })

/-- `textRight(value, style?)` -/
def textRight (b : ReceiptBuilder) (value : Str)
    (style : Option TextStyle := Option.none) : ReceiptBuilder :=
  b.text value (some { style.getD {} with align := some .right })

/-- `textBold(value, style?)` -/
def textBold (b : ReceiptBuilder) (value : Str)
    (style : Option TextStyle := Option.none) : ReceiptBuilder :=
  b.text value (some { style.getD {} with bold := some true })

/-- `title(value)` -/
def title (b : ReceiptBuilder) (value : Str) : ReceiptBuilder :=
  b.text value
    (some { align := some .center, bold := some true, size := some .double })

/-- `subtitle(value)` -/
def subtitle (b : ReceiptBuilder) (value : Str) : ReceiptBuilder :=
  b.text value (some { align := some .center, bold := some true })

/-- `line(character?)` -/
def line (b : ReceiptBuilder) (character : Option Str := Option.none) :
    ReceiptBuilder :=
  { b with contents := b.contents ++ [.line character] }

/-- `dashedLine()` -/
def dashedLine (b : ReceiptBuilder) : ReceiptBuilder := b.line (some ['-'])

/-- `doubleLine()` -/
def doubleLine (b : ReceiptBuilder) : ReceiptBuilder := b.line (some ['='])

/-- `feed(lines = DEFAULTS.FEED_LINES)` -/
def feed (b : ReceiptBuilder) (lines : Int := DEFAULTS_FEED_LINES) :
    ReceiptBuilder :=
  { b with contents := b.contents ++ [.feed (some lines)] }

/-- `cut(partial = false)` -/
def cut (b : ReceiptBuilder) (isPartial : Bool := false) : ReceiptBuilder :=
  { b with contents := b.contents ++ [.cut (some isPartial)] }

/-- The row-normalisation step of `tableRow`:
`columns.map(col => typeof col === 'string' ? { text: col } : col)`. -/
def tableRowOf (columns : List (Str ⊕ TableColumn)) : List TableColumn :=
  columns.map (fun col =>
    match col with
    | .inl s => ({ text := s } : TableColumn)
    | .inr c => c)

/-- `tableRow(columns)`: strings become `{ text }` columns; if the last item
of the sequence is a table, the row is appended to it, otherwise a fresh
single-row table item is appended. -/
def tableRow (b : ReceiptBuilder) (columns : List (Str ⊕ TableColumn)) :
    ReceiptBuilder :=
  let row := tableRowOf columns
  match b.contents.getLast? with
  | some (.table rows) =>
    { b with contents := b.contents.dropLast ++ [.table (rows ++ [row])] }
  | _ => { b with contents := b.contents ++ [.table [row]] }

/-- `row(label, value, labelBold = false)` -/
def row (b : ReceiptBuilder) (label value : Str) (labelBold : Bool := false) :
    ReceiptBuilder :=
  b.tableRow
    [.inr { text := label, align := some .left, bold := some labelBold },
     .inr { text := value, align := some .right }]

/-- `itemRow(name, qty, price)` (`qty.toString()` for an integral quantity is
its decimal representation). -/
def itemRow (b : ReceiptBuilder) (name : Str) (qty : Int) (price : ℚ) :
    ReceiptBuilder :=
  b.tableRow
    [.inr { text := name, width := .pct 50, align := some .left },
     .inr { text := intRepr qty, width := .pct 15, align := some .center },
     .inr { text := formatCurrency price b.currencyOptions, width := .pct 35,
            align := some .right }]

/-- `totalRow(label, amount)` -/
def totalRow (b : ReceiptBuilder) (label : Str) (amount : ℚ) :
    ReceiptBuilder :=
  b.tableRow
    [.inr { text := label, align := some .left, bold := some true },
     .inr { text := formatCurrency amount b.currencyOptions,
            align := some .right, bold := some true }]

/-- `barcode(value, options?)`: every stored field is filled in, numeric
fields through `||` (so `0` falls back), `showText` through `??`. -/
def barcode (b : ReceiptBuilder) (value : Str)
    (options : Option BarcodeInput := Option.none) : ReceiptBuilder :=
  let o := options.getD {}
  { b with contents := b.contents ++
      [.barcode value
        { type := o.type.getD .code128
          width := some (jsOrNum o.width DEFAULTS_BARCODE_WIDTH)
          height := some (jsOrNum o.height DEFAULTS_BARCODE_HEIGHT)
          showText := some (o.showText.getD true)
          textPosition := some (o.textPosition.getD .below)
          align := some (o.align.getD .center) }] }

/-- `qrcode(value, options?)` -/
def qrcode (b : ReceiptBuilder) (value : Str)
    (options : Option QRCodeOptions := Option.none) : ReceiptBuilder :=
  let o := options.getD {}
  { b with contents := b.contents ++
      [.qrcode value
        (some
          { size := some (jsOrNum o.size DEFAULTS_QR_SIZE)
            errorCorrection := some (o.errorCorrection.getD .M)
            align := some (o.align.getD .center) })] }

/-- `image(source, options?)` -/
def image (b : ReceiptBuilder) (source : Str)
    (options : Option ImageOptions := Option.none) : ReceiptBuilder :=
  { b with contents := b.contents ++ [.image source options] }

/-- `fromData(data)` — the template lowering. -/
def fromData (b : ReceiptBuilder) (data : ReceiptData) : ReceiptBuilder :=
  let b :=
    match data.header with
    | some header =>
      let b :=
        if strTruthy header.logo then
          b.image (header.logo.getD [])
            (some { align := some .center })
        else b
      let b :=
        if strTruthy header.title then b.title (header.title.getD []) else b
      let b :=
        if strTruthy header.subtitle then b.subtitle (header.subtitle.getD [])
        else b
      let b :=
        match header.address with
        | some address =>
          address.foldl (fun (b : ReceiptBuilder) l => b.textCenter l) b
        | Option.none => b
      let b :=
        if strTruthy header.phone then b.textCenter (header.phone.getD [])
        else b
      b.line
    | Option.none => b
  let b :=
    match data.meta with
    | some meta =>
      let b :=
        if strTruthy meta.orderNumber then
          b.row "Order #:".data (meta.orderNumber.getD [])
        else b
      let b :=
        match meta.date with
        | some date => b.row "Date:".data (formatDate date defaultDateFormat)
        | Option.none => b
      let b :=
        if strTruthy meta.cashier then
          b.row "Cashier:".data (meta.cashier.getD [])
        else b
      let b :=
        if strTruthy meta.customer then
          b.row "Customer:".data (meta.customer.getD [])
        else b
      b.line
    | Option.none => b
  let b := b.tableRow
    [.inr { text := "Item".data, width := .pct 50, align := some .left,
            bold := some true },
     .inr { text := "Qty".data, width := .pct 15, align := some .center,
            bold := some true },
     .inr { text := "Price".data, width := .pct 35, align := some .right,
            bold := some true }]
  let b := b.dashedLine
  let b := data.items.foldl
    (fun b item => b.itemRow item.name item.quantity item.price) b
  let b := b.line
  let b :=
    match data.totals with
    | some totals =>
      let b :=
        match totals.subtotal with
        | some subtotal =>
          b.row "Subtotal:".data (formatCurrency subtotal b.currencyOptions)
        | Option.none => b
      let b :=
        match totals.tax with
        | some tax =>
          b.row "Tax:".data (formatCurrency tax b.currencyOptions)
        | Option.none => b
      let b :=
        match totals.discount with
        | some discount =>
          if discount > 0 then
            b.row "Discount:".data
              ('-' :: formatCurrency discount b.currencyOptions)
          else b
        | Option.none => b
      let b := b.doubleLine
      b.totalRow "TOTAL:".data totals.total
    | Option.none => b
  let b :=
    match data.payment with
    | some payment =>
      let b := b.feed 1
      let b := b.row "Payment:".data payment.method
      let b :=
        b.row "Amount:".data (formatCurrency payment.amount b.currencyOptions)
      match payment.change with
      | some change =>
        if change > 0 then
          b.row "Change:".data (formatCurrency change b.currencyOptions)
        else b
      | Option.none => b
    | Option.none => b
  let b :=
    match data.footer with
    | some footer =>
      if footer.length > 0 then
        let b := b.feed 1
        let b := b.line
        footer.foldl (fun (b : ReceiptBuilder) l => b.textCenter l) b
      else b
    | Option.none => b
  let b := b.feed
  b.cut

end ReceiptBuilder

/-! ## Spec-side definitions used to state claims -/

/-- The pass-1 consumed width of one column, `none` for a flex column
(spec §4.1: numeric width is consumed as-is, a percentage consumes
`floor(totalWidth × pct)`). -/
def pass1Val (totalWidth : Int) : ColWidth → Option Int
  | .flex => Option.none
  | .fixed n => some n
  | .pct p => some (Int.fdiv (totalWidth * p) 100)

/-- Modelled from the spec: total width consumed by pass 1. -/
def specConsumed (totalWidth : Int) (columns : List ColWidth) : Int :=
  (columns.map (fun c => (pass1Val totalWidth c).getD 0)).sum

/-- Modelled from the spec: the two-pass column-width description of §4.1 —
a fixed column keeps its width, a percentage column gets
`floor(totalWidth × pct)`, and each flex column gets
`floor((totalWidth − consumed) / flexCount)`. -/
def specColumnWidths (columns : List ColWidth) (totalWidth : Int) :
    List Int :=
  let consumed := specConsumed totalWidth columns
  let flexCount := columns.countP (fun c => c matches .flex)
  columns.map (fun c =>
    match c with
    | .flex => Int.fdiv (totalWidth - consumed) flexCount
    | .fixed n => n
    | .pct p => Int.fdiv (totalWidth * p) 100)

/-- The non-whitespace characters of a string, in order. -/
def nonSpace (s : Str) : Str := s.filter (fun c => !isJsSpace c)

/-! ## Theorems -/

/-- **C1.** For every `ReceiptData` with exactly one item, a totals block
containing only `total`, and no header, meta, payment, or footer,
`ReceiptBuilder.fromData` (on a fresh builder) appends exactly: the bold
items-header table row (Item 50% / Qty 15% / Price 35%), a dashed line, a
table with the single item row, a default line, a `'='` line, the bold TOTAL
table row, a feed of 3 lines, and a cut — with no payment or footer items. -/
theorem C1_fromData_minimal_sequence (pw : Option PaperWidth) (name : Str)
    (qty : Int) (price total : ℚ) :
    ((createReceipt pw).fromData
        { items := [{ name := name, quantity := qty, price := price }],
          totals := some { total := total } }).contents =
      [.table [[⟨"Item".data, .pct 50, some .left, some true⟩,
                ⟨"Qty".data, .pct 15, some .center, some true⟩,
                ⟨"Price".data, .pct 35, some .right, some true⟩]],
       .line (some ['-']),
       .table [[⟨name, .pct 50, some .left, Option.none⟩,
                ⟨intRepr qty, .pct 15, some .center, Option.none⟩,
                ⟨formatCurrency price {}, .pct 35, some .right, Option.none⟩]],
       .line Option.none,
       .line (some ['=']),
       .table [[⟨"TOTAL:".data, .flex, some .left, some true⟩,
                ⟨formatCurrency total {}, .flex, some .right, some true⟩]],
       .feed (some 3),
       .cut (some false)] := by
  rfl

/-- Appending a table row when the sequence ends in a table item extends that
table with the new row. -/
theorem tableRow_last_table (b : ReceiptBuilder) (pre : List PrintContent)
    (rows : List (List TableColumn)) (cols : List (Str ⊕ TableColumn))
    (h : b.contents = pre ++ [.table rows]) :
    (b.tableRow cols).contents =
      pre ++ [.table (rows ++ [ReceiptBuilder.tableRowOf cols])] := by
  unfold ReceiptBuilder.tableRow
  rw [h, List.getLast?_concat]
  simp

/-- Appending a table row when the sequence does not end in a table item
appends a fresh single-row table. -/
theorem tableRow_last_not_table (b : ReceiptBuilder)
    (cols : List (Str ⊕ TableColumn))
    (h : ∀ rows, b.contents.getLast? ≠ some (.table rows)) :
    (b.tableRow cols).contents =
      b.contents ++ [.table [ReceiptBuilder.tableRowOf cols]] := by
  unfold ReceiptBuilder.tableRow
  split
  · next rows heq => exact absurd heq (h rows)
  · rfl

/-- **C2.** `tableRow` coalescing: a table row appended when the last item is
a Table extends that table's row list; otherwise a fresh one-row Table item
is appended.  Consequently two `tableRow` calls with no intervening append
yield one Table with two rows, and an interposed `text` append yields two
separate Table items. -/
theorem C2_tableRow_coalescing :
    (∀ (b : ReceiptBuilder) (pre : List PrintContent)
        (rows : List (List TableColumn)) (cols : List (Str ⊕ TableColumn)),
      b.contents = pre ++ [.table rows] →
      (b.tableRow cols).contents =
        pre ++ [.table (rows ++ [ReceiptBuilder.tableRowOf cols])]) ∧
    (∀ (b : ReceiptBuilder) (cols : List (Str ⊕ TableColumn)),
      (∀ rows, b.contents.getLast? ≠ some (.table rows)) →
      (b.tableRow cols).contents =
        b.contents ++ [.table [ReceiptBuilder.tableRowOf cols]]) ∧
    (∀ (b : ReceiptBuilder) (c₁ c₂ : List (Str ⊕ TableColumn)),
      (∀ rows, b.contents.getLast? ≠ some (.table rows)) →
      ((b.tableRow c₁).tableRow c₂).contents =
        b.contents ++
          [.table [ReceiptBuilder.tableRowOf c₁,
                   ReceiptBuilder.tableRowOf c₂]]) ∧
    (∀ (b : ReceiptBuilder) (c₁ c₂ : List (Str ⊕ TableColumn)) (t : Str)
        (s : Option TextStyle),
      (∀ rows, b.contents.getLast? ≠ some (.table rows)) →
      (((b.tableRow c₁).text t s).tableRow c₂).contents =
        b.contents ++
          [.table [ReceiptBuilder.tableRowOf c₁], .text t s,
           .table [ReceiptBuilder.tableRowOf c₂]]) := by
  refine ⟨tableRow_last_table, tableRow_last_not_table, ?_, ?_⟩
  · intro b c₁ c₂ h
    have h₁ := tableRow_last_not_table b c₁ h
    have h₂ := tableRow_last_table (b.tableRow c₁) b.contents
      [ReceiptBuilder.tableRowOf c₁] c₂ h₁
    rw [h₂]
    rfl
  · intro b c₁ c₂ t s h
    have h₁ := tableRow_last_not_table b c₁ h
    have ht : ((b.tableRow c₁).text t s).contents =
        (b.contents ++ [.table [ReceiptBuilder.tableRowOf c₁]]) ++
          [.text t s] := by
      unfold ReceiptBuilder.text
      rw [h₁]
    have h₂ := tableRow_last_not_table ((b.tableRow c₁).text t s) c₂ (by
      intro rows
      rw [ht, List.getLast?_concat]
      simp)
    rw [h₂, ht]
    simp

/-- Witness for C2: concrete instantiation on a fresh builder. -/
theorem C2_witness :
    ((((ReceiptBuilder.init .w80).tableRow [.inl ['a']]).tableRow
        [.inl ['b']]).contents =
      [.table [ReceiptBuilder.tableRowOf [.inl ['a']],
               ReceiptBuilder.tableRowOf [.inl ['b']]]]) ∧
    (((((ReceiptBuilder.init .w80).tableRow [.inl ['a']]).text ['t']
          Option.none).tableRow [.inl ['b']]).contents =
      [.table [ReceiptBuilder.tableRowOf [.inl ['a']]],
       .text ['t'] Option.none,
       .table [ReceiptBuilder.tableRowOf [.inl ['b']]]]) := by
  constructor
  · have h := C2_tableRow_coalescing.2.2.1 (ReceiptBuilder.init .w80)
      [.inl ['a']] [.inl ['b']] (by intro rows; simp [ReceiptBuilder.init])
    simpa using h
  · have h := C2_tableRow_coalescing.2.2.2 (ReceiptBuilder.init .w80)
      [.inl ['a']] [.inl ['b']] ['t'] Option.none
      (by intro rows; simp [ReceiptBuilder.init])
    simpa using h

/-- **C10.** At the builder's interface an explicit numeric zero falls back to
the documented default (JavaScript `||`): `qrcode(v, {size: 0})` stores size
6, `barcode(v, {width: 0, height: 0})` stores width 2 and height 100, each
indistinguishable from the absent option — while an explicit
`showText: false` is preserved (JavaScript `??`). -/
theorem C10_zero_options_fall_back :
    (∀ (b : ReceiptBuilder) (v : Str),
      (b.qrcode v (some { size := some 0 })).contents =
        b.contents ++
          [.qrcode v (some { size := some 6, errorCorrection := some .M,
                             align := some .center })]) ∧
    (∀ (b : ReceiptBuilder) (v : Str),
      b.qrcode v (some { size := some 0 }) = b.qrcode v Option.none) ∧
    (∀ (b : ReceiptBuilder) (v : Str),
      (b.barcode v (some { width := some 0, height := some 0 })).contents =
        b.contents ++
          [.barcode v { type := .code128, width := some 2, height := some 100,
                        showText := some true, textPosition := some .below,
                        align := some .center }]) ∧
    (∀ (b : ReceiptBuilder) (v : Str),
      b.barcode v (some { width := some 0, height := some 0 }) =
        b.barcode v Option.none) ∧
    (∀ (b : ReceiptBuilder) (v : Str),
      (b.barcode v (some { showText := some false })).contents =
        b.contents ++
          [.barcode v { type := .code128, width := some 2, height := some 100,
                        showText := some false, textPosition := some .below,
                        align := some .center }]) :=
  ⟨fun _ _ => rfl, fun _ _ => rfl, fun _ _ => rfl, fun _ _ => rfl,
   fun _ _ => rfl⟩

/-- **C7.** An item with an unrecognized content tag contributes zero bytes:
encoding a sequence containing it equals encoding the sequence with it
removed, and every encoder output still begins with the initialization
command ESC `0x40`. -/
theorem C7_unrecognized_tag_noop :
    (∀ (pre post : List PrintContent) (pw : PaperWidth),
      buildESCPOSData (pre ++ .unrecognized :: post) pw =
        buildESCPOSData (pre ++ post) pw) ∧
    (∀ (contents : List PrintContent) (pw : PaperWidth),
      (buildESCPOSData contents pw).take 2 = CMD_INIT) := by
  constructor
  · intro pre post pw
    have hu : ∀ n, buildContentESCPOS .unrecognized n = [] := fun _ => rfl
    unfold buildESCPOSData
    simp [hu]
  · intro contents pw
    rfl

/-- **C8.** A negative amount with a `before` symbol renders as
`<symbol>-<digits>` (the symbol outside the minus sign); with an `after`
symbol the symbol is appended separated by one space; concretely
`formatCurrency(-99.99, {symbol: "$", position: before}) = "$-99.99"`. -/
theorem C8_negative_symbol_order :
    (∀ (amount : ℚ) (options : CurrencyOptions) (s : Str),
      (mergeCurrency options).symbol = s → s ≠ [] →
      (mergeCurrency options).symbolPosition = .before → amount < 0 →
      formatCurrency amount options =
        s ++ '-' :: currencyUnsigned amount options) ∧
    (∀ (amount : ℚ) (options : CurrencyOptions) (s : Str),
      (mergeCurrency options).symbol = s → s ≠ [] →
      (mergeCurrency options).symbolPosition = .after →
      formatCurrency amount options =
        currencyCore amount options ++ ' ' :: s) ∧
    formatCurrency (mkRat (-9999) 100)
        { symbol := some ['$'], symbolPosition := some .before } =
      "$-99.99".data := by
  refine ⟨?_, ?_, by decide⟩
  · intro amount options s hs hne hpos hneg
    simp only [formatCurrency, currencyCore]
    rw [hs, hpos]
    simp [hne, hneg]
  · intro amount options s hs hne hpos
    simp only [formatCurrency]
    rw [hs, hpos]
    simp [hne]

/-- Witness for C8: both general clauses applied at concrete inputs. -/
theorem C8_witness :
    formatCurrency (mkRat (-9999) 100)
        { symbol := some ['$'], symbolPosition := some .before } =
      ['$'] ++ '-' :: currencyUnsigned (mkRat (-9999) 100)
        { symbol := some ['$'], symbolPosition := some .before } ∧
    formatCurrency (-5) { symbol := some ['$'] } =
      currencyCore (-5) { symbol := some ['$'] } ++ ' ' :: ['$'] :=
  ⟨C8_negative_symbol_order.1 (mkRat (-9999) 100)
      { symbol := some ['$'], symbolPosition := some .before } ['$']
      rfl (by decide) rfl (by decide),
   C8_negative_symbol_order.2.1 (-5) { symbol := some ['$'] } ['$']
      rfl (by decide) rfl⟩

/-- Hoisting a conditional push out of the buffer prefix. -/
theorem append_ite {α : Type} (c : Prop) [Decidable c] (L : List α) (x : α) :
    (if c then L ++ [x] else L) = L ++ (if c then [x] else []) := by
  split <;> simp

/-- Hoisting the three-way size-command push out of the buffer prefix. -/
theorem append_ite3 {α : Type} (c₁ c₂ c₃ : Prop) [Decidable c₁] [Decidable c₂]
    [Decidable c₃] (L : List α) (x y z : α) :
    (if c₁ then L ++ [x]
     else if c₂ then L ++ [y]
     else if c₃ then L ++ [z]
     else L) =
      L ++ (if c₁ then [x] else if c₂ then [y] else if c₃ then [z] else []) := by
  split_ifs <;> simp

/-- **C3.** A Text item's emission is exactly: one alignment command (left
when unset), a size command only for a non-normal size, on-commands only for
set attributes, the UTF-8 text bytes and a line feed, the matching off/reset
commands only for attributes that were set (the size reset fires whenever the
`size` field is present), and an unconditional trailing align-left — so no
style state survives the item. -/
theorem C3_text_emission_shape (text : Str) (style : Option TextStyle) :
    buildTextESCPOS text style =
      [if styleAlign style = some .center then CMD_ALIGN_CENTER
       else if styleAlign style = some .right then CMD_ALIGN_RIGHT
       else CMD_ALIGN_LEFT] ++
      (if styleSize style = some .double then [CMD_SIZE_DOUBLE]
       else if styleSize style = some .doubleHeight then
         [CMD_SIZE_DOUBLE_HEIGHT]
       else if styleSize style = some .doubleWidth then
         [CMD_SIZE_DOUBLE_WIDTH]
       else []) ++
      (if styleBold style then [CMD_BOLD_ON] else []) ++
      (if styleUnderline style then [CMD_UNDERLINE_ON] else []) ++
      (if styleInvert style then [CMD_INVERT_ON] else []) ++
      [utf8 text] ++ [CMD_LF] ++
      (if styleBold style then [CMD_BOLD_OFF] else []) ++
      (if styleUnderline style then [CMD_UNDERLINE_OFF] else []) ++
      (if styleInvert style then [CMD_INVERT_OFF] else []) ++
      (if (styleSize style).isSome then [CMD_SIZE_NORMAL] else []) ++
      [CMD_ALIGN_LEFT] ∧
    (buildTextESCPOS text style).getLast? = some CMD_ALIGN_LEFT := by
  constructor
  · simp only [buildTextESCPOS, append_ite, append_ite3]
    simp only [List.append_assoc, List.nil_append]
    split_ifs <;> simp
  · simp only [buildTextESCPOS]
    exact List.getLast?_concat _

/-- Counterexample for **C4** as stated: the first command a QRCode item
emits (no alignment set) is the model-select command, and its bytes are not
`GS 28 6B 04 00 31 41 02 00` as the claim and the spec's command table say. -/
theorem C4_counterexample :
    (buildQRCodeESCPOS ['x'] Option.none).head? = some qrModelCmd ∧
    qrModelCmd ≠ [0x1d, 0x28, 0x6b, 0x04, 0x00, 0x31, 0x41, 0x02, 0x00] := by
  exact ⟨rfl, by decide⟩

/-- **C4 (amended).** The encoder's fixed "select model 2" command is
`GS 28 6B 04 00 31 41 32 00` (parameter byte `0x32`, ASCII `'2'`), emitted
for every QRCode item right after the optional alignment command; the
repository's command table (`Commands.QRCODE.MODEL(2)`) instead yields the
claim's `GS 28 6B 04 00 31 41 02 00`. -/
theorem C4_model_select_amended :
    (∀ (value : Str) (options : Option QRCodeOptions),
      ((buildQRCodeESCPOS value options).drop
          (if options.bind QRCodeOptions.align = some TextAlign.center ∨
              options.bind QRCodeOptions.align = some TextAlign.right
           then 1 else 0)).head? = some qrModelCmd) ∧
    qrModelCmd = [0x1d, 0x28, 0x6b, 0x04, 0x00, 0x31, 0x41, 0x32, 0x00] ∧
    Commands_QRCODE_MODEL 2 =
      [0x1d, 0x28, 0x6b, 0x04, 0x00, 0x31, 0x41, 0x02, 0x00] := by
  refine ⟨?_, rfl, by decide⟩
  intro value options
  unfold buildQRCodeESCPOS
  rcases h : options.bind QRCodeOptions.align with _ | a
  · simp [h]
  · cases a <;> simp [h]

/-- **C9.** The encoder's barcode width byte is clamped into `[2, 6]` for
every input, but the height byte is only clamped from above
(`Math.min(255, height)`): for input height 0 the emitted parameter byte is
`0`, outside the protocol bounds `[1, 255]` of GS `h` — which the
repository's own command table (`Commands.BARCODE.HEIGHT`, clamped to
`[1, 255]`) respects at the same input. -/
theorem C9_height_zero_escapes_clamp :
    (buildBarcodeESCPOS ['1']
        { type := .code128, width := some 2, height := some 0 }).head? =
      some [0x1d, 0x68, 0] ∧
    ¬ 1 ≤ (0 : Nat) ∧
    Commands_BARCODE_HEIGHT 0 = [0x1d, 0x68, 0x01] ∧
    (∀ (options : BarcodeOptions),
      2 ≤ toByte (min 6 (max 2 (options.width.getD DEFAULTS_BARCODE_WIDTH))) ∧
      toByte (min 6 (max 2 (options.width.getD DEFAULTS_BARCODE_WIDTH))) ≤ 6) := by
  refine ⟨rfl, by decide, by decide, ?_⟩
  intro options
  unfold toByte DEFAULTS_BARCODE_WIDTH
  constructor <;> omega

/-- Closed form of the format-module first pass, with a generalized
accumulator. -/
theorem fcPass1_go (total : Int) (cols : List ColWidth) :
    ∀ (ws : List Int) (r : Int) (k : Nat),
      cols.foldl (fcStep total) (ws, r, k) =
        (ws ++ cols.map (fun c => (pass1Val total c).getD (-1)),
         r - specConsumed total cols,
         k + cols.countP (fun c => c matches .flex)) := by
  induction cols with
  | nil => intro ws r k; simp [specConsumed]
  | cons c cs ih =>
    intro ws r k
    cases c <;>
      simp [fcStep, ih, specConsumed, pass1Val, List.countP_cons] <;>
      omega

/-- Closed form of `fcPass1`. -/
theorem fcPass1_closed (total : Int) (cols : List ColWidth) :
    fcPass1 total cols =
      (cols.map (fun c => (pass1Val total c).getD (-1)),
       total - specConsumed total cols,
       cols.countP (fun c => c matches .flex)) := by
  unfold fcPass1
  simpa using fcPass1_go total cols [] total 0

/-- Closed form of the encoder-private first pass, with a generalized
accumulator. -/
theorem ecPass1_go (total : Int) (cols : List TableColumn) :
    ∀ (ws : List (Option Int)) (u : Int) (k : Nat),
      cols.foldl (ecStep total) (ws, u, k) =
        (ws ++ cols.map (fun col => pass1Val total col.width),
         u + specConsumed total (cols.map TableColumn.width),
         k + cols.countP (fun col => col.width matches .flex)) := by
  induction cols with
  | nil => intro ws u k; simp [specConsumed]
  | cons c cs ih =>
    intro ws u k
    rcases hw : c.width with _ | n | p <;>
      simp [ecStep, hw, ih, specConsumed, pass1Val, List.countP_cons] <;>
      omega

/-- Closed form of `ecPass1`. -/
theorem ecPass1_closed (total : Int) (cols : List TableColumn) :
    ecPass1 total cols =
      (cols.map (fun col => pass1Val total col.width),
       specConsumed total (cols.map TableColumn.width),
       cols.countP (fun col => col.width matches .flex)) := by
  unfold ecPass1
  simpa using ecPass1_go total cols [] 0 0

/-- The format-module `calculateColumnWidths` matches the spec's two-pass
description whenever no column's pass-1 width collides with the internal
`-1` flex placeholder. -/
theorem calculateColumnWidths_spec (cols : List ColWidth) (total : Int)
    (h : ∀ c ∈ cols, pass1Val total c ≠ some (-1)) :
    calculateColumnWidths cols total = specColumnWidths cols total := by
  unfold calculateColumnWidths specColumnWidths
  rw [fcPass1_closed]
  by_cases hf : cols.countP (fun c => c matches .flex) > 0
  · simp only [hf, if_true, List.map_map]
    apply List.map_congr_left
    intro c hc
    cases c with
    | flex => simp [pass1Val]
    | fixed n =>
      have hne := h _ hc
      simp [pass1Val] at hne ⊢
      intro he
      exact absurd he hne
    | pct p =>
      have hne := h _ hc
      simp [pass1Val] at hne ⊢
      intro he
      exact absurd he hne
  · simp only [hf, if_false]
    have hnoflex : ∀ c ∈ cols, ¬ (c matches .flex) = true := by
      rw [← List.countP_eq_zero]
      omega
    apply List.map_congr_left
    intro c hc
    cases c with
    | flex =>
      have hfl := hnoflex _ hc
      simp at hfl
    | fixed n => simp [pass1Val]
    | pct p => simp [pass1Val]

/-- The encoder-private `calculateColumnWidths` matches the spec's two-pass
description unconditionally (its flex placeholder `null` cannot collide with
a computed width). -/
theorem calculateColumnWidthsEnc_spec (cols : List TableColumn) (total : Int) :
    calculateColumnWidthsEnc cols total =
      specColumnWidths (cols.map TableColumn.width) total := by
  unfold calculateColumnWidthsEnc specColumnWidths
  rw [ecPass1_closed]
  have hcount : (cols.map TableColumn.width).countP (fun c => c matches .flex) =
      cols.countP (fun col => col.width matches .flex) := List.countP_map ..
  by_cases hf : cols.countP (fun col => col.width matches .flex) > 0
  · simp only [hf, if_true, List.map_map, hcount]
    apply List.map_congr_left
    intro c _
    rcases hw : c.width with _ | n | p <;> simp [pass1Val, hw]
  · simp only [hf, if_false, List.map_map, hcount]
    have hnoflex : ∀ c ∈ cols, ¬ (c.width matches .flex) = true := by
      rw [← List.countP_eq_zero]
      omega
    apply List.map_congr_left
    intro c hc
    rcases hw : c.width with _ | n | p
    · exact absurd (by simp [hw]) (hnoflex _ hc)
    · simp [pass1Val, hw]
    · simp [pass1Val, hw]

/-- Counterexample for **C5** as stated: in the format-module implementation
an explicit numeric width of `-1` collides with the internal flex
placeholder, so the column does not consume its own width — columns
`[{width: -1}, {}]` over 48 yield `[49, 49]`, not the `[-1, 49]` the
two-pass description prescribes (the encoder-private copy does yield
`[-1, 49]`). -/
theorem C5_counterexample :
    calculateColumnWidths [.fixed (-1), .flex] 48 = [49, 49] ∧
    calculateColumnWidths [.fixed (-1), .flex] 48 ≠ [-1, 49] ∧
    specColumnWidths [.fixed (-1), .flex] 48 = [-1, 49] ∧
    calculateColumnWidthsEnc
        [{ text := [], width := .fixed (-1) }, { text := [] }] 48 =
      [-1, 49] := by
  refine ⟨by decide, by decide, by decide, by decide⟩

/-- **C5 (amended).** Column-width distribution follows the spec's two-pass
description — a numeric column consumes its width, a percentage column
consumes `floor(totalWidth·pct)`, each flex column receives
`floor((totalWidth − consumed)/flexCount)`, and the remainder is dropped —
for the format-module implementation whenever no column's pass-1 width
equals `-1` (its internal flex placeholder), and for the encoder-private
implementation unconditionally.  Concretely `[{width:"60%"},{}]` over 48
yields `[28, 20]`, and the returned sum can be strictly below `totalWidth`. -/
theorem C5_two_pass_amended :
    (∀ (columns : List ColWidth) (totalWidth : Int),
      (∀ c ∈ columns, pass1Val totalWidth c ≠ some (-1)) →
      calculateColumnWidths columns totalWidth =
        specColumnWidths columns totalWidth) ∧
    (∀ (columns : List TableColumn) (totalWidth : Int),
      calculateColumnWidthsEnc columns totalWidth =
        specColumnWidths (columns.map TableColumn.width) totalWidth) ∧
    calculateColumnWidths [.pct 60, .flex] 48 = [28, 20] ∧
    (calculateColumnWidths [.flex, .flex] 5 = [2, 2] ∧
      (calculateColumnWidths [.flex, .flex] 5).sum < 5) :=
  ⟨calculateColumnWidths_spec, calculateColumnWidthsEnc_spec,
   by decide, by decide, by decide⟩

/-- Witness for C5: the amended equivalence applied at the spec's own
example. -/
theorem C5_witness :
    calculateColumnWidths [.pct 60, .flex] 48 =
      specColumnWidths [.pct 60, .flex] 48 :=
  C5_two_pass_amended.1 [.pct 60, .flex] 48 (by decide)

/-- `nonSpace` of the empty string. -/
theorem nonSpace_nil : nonSpace [] = [] := rfl

/-- `nonSpace` is an append homomorphism. -/
theorem nonSpace_append (a b : Str) :
    nonSpace (a ++ b) = nonSpace a ++ nonSpace b := by
  simp [nonSpace]

/-- Dropping a leading whitespace run does not change the non-whitespace
characters. -/
theorem nonSpace_dropWhile (l : Str) :
    nonSpace (l.dropWhile isJsSpace) = nonSpace l := by
  induction l with
  | nil => rfl
  | cons c cs ih =>
    by_cases hc : isJsSpace c
    · rw [List.dropWhile_cons, if_pos hc, ih]
      simp [nonSpace, List.filter_cons, hc]
    · rw [List.dropWhile_cons, if_neg hc]

/-- `trim` only removes whitespace: the non-whitespace characters survive. -/
theorem nonSpace_trim (s : Str) : nonSpace (jsTrim s) = nonSpace s := by
  have hrev : ∀ l : Str, nonSpace l.reverse = (nonSpace l).reverse := by
    intro l
    simp [nonSpace]
  rw [jsTrim, hrev, nonSpace_dropWhile, hrev, List.reverse_reverse,
    nonSpace_dropWhile]

/-- A leading space contributes nothing to `nonSpace`. -/
theorem nonSpace_space_cons (w : Str) : nonSpace (' ' :: w) = nonSpace w := by
  simp [nonSpace, List.filter_cons, show isJsSpace ' ' = true from by decide]

/-- The chunks produced by the hard-split loop concatenate back to the
original word. -/
theorem hardSplit_join (n : Nat) (l : Str) :
    (hardSplit n l).1.flatten ++ (hardSplit n l).2 = l := by
  by_cases h : l.length ≤ n ∨ n = 0
  · rw [hardSplit, if_pos h]
    simp
  · rw [hardSplit, if_neg h]
    have ih := hardSplit_join n (l.drop n)
    simp only [List.flatten_cons, List.append_assoc, ih]
    exact List.take_append_drop n l
termination_by l.length
decreasing_by
  simp only [not_or] at h
  simp only [List.length_drop]
  omega

/-- One `wordWrap` loop iteration preserves the non-whitespace characters of
`lines ++ currentLine ++ word`. -/
theorem processWord_inv (mw : Nat) (st : List Str × Str) (w : Str) :
    nonSpace ((processWord mw st w).1.flatten ++ (processWord mw st w).2) =
      nonSpace (st.1.flatten ++ st.2 ++ w) := by
  rcases st with ⟨lines, cur⟩
  by_cases h1 : mw < w.length
  · by_cases hcur : cur = []
    · have he : processWord mw (lines, cur) w =
          (lines ++ (hardSplit mw w).1, (hardSplit mw w).2) := by
        simp [processWord, h1, hcur]
      rw [he]
      subst hcur
      simp only [List.flatten_append, List.append_assoc, nonSpace_append,
        List.append_nil, List.nil_append, nonSpace_nil]
      rw [← nonSpace_append (hardSplit mw w).1.flatten (hardSplit mw w).2,
        hardSplit_join]
    · have he : processWord mw (lines, cur) w =
          (lines ++ [jsTrim cur] ++ (hardSplit mw w).1,
           (hardSplit mw w).2) := by
        simp [processWord, h1, hcur]
      rw [he]
      simp only [List.flatten_append, List.flatten_cons, List.flatten_nil,
        List.append_nil, List.append_assoc, nonSpace_append, nonSpace_trim]
      rw [← nonSpace_append (hardSplit mw w).1.flatten (hardSplit mw w).2,
        hardSplit_join]
  · by_cases h2 : (jsTrim (cur ++ ' ' :: w)).length ≤ mw
    · have he : processWord mw (lines, cur) w =
          (lines, jsTrim (cur ++ ' ' :: w)) := by
        simp [processWord, h1, h2]
      rw [he]
      simp only [nonSpace_append, nonSpace_trim, List.append_assoc]
      rw [nonSpace_space_cons]
    · by_cases hcur : cur = []
      · rw [hcur] at h2
        simp only [List.nil_append] at h2
        have he : processWord mw (lines, cur) w = (lines, w) := by
          simp [processWord, h1, h2, hcur]
        rw [he]
        subst hcur
        simp [nonSpace_append, nonSpace_nil]
      · have he : processWord mw (lines, cur) w =
            (lines ++ [jsTrim cur], w) := by
          simp [processWord, h1, h2, hcur]
        rw [he]
        simp [List.flatten_append, nonSpace_append, nonSpace_trim,
          List.append_assoc]

/-- Folding the word loop preserves the non-whitespace characters. -/
theorem foldl_processWord_inv (mw : Nat) (ws : List Str) :
    ∀ st : List Str × Str,
      nonSpace ((ws.foldl (processWord mw) st).1.flatten ++
          (ws.foldl (processWord mw) st).2) =
        nonSpace (st.1.flatten ++ st.2 ++ ws.flatten) := by
  induction ws with
  | nil => intro st; simp
  | cons w rest ih =>
    intro st
    rw [List.foldl_cons, ih (processWord mw st w)]
    have h := processWord_inv mw st w
    simpa [nonSpace_append, List.append_assoc, List.flatten_cons] using
      congrArg (· ++ nonSpace rest.flatten) h

/-- `split` never returns an empty list of fields. -/
theorem jsSplit_ne_nil (sep : Char) (l : Str) : jsSplitCh sep l ≠ [] := by
  cases l with
  | nil => simp [jsSplitCh]
  | cons c cs =>
    unfold jsSplitCh
    split_ifs
    · simp
    · split <;> simp

/-- Splitting on spaces preserves the non-whitespace characters. -/
theorem nonSpace_jsSplit (l : Str) :
    nonSpace (jsSplitCh ' ' l).flatten = nonSpace l := by
  induction l with
  | nil => rfl
  | cons c cs ih =>
    unfold jsSplitCh
    split_ifs with hc
    · subst hc
      simpa [List.flatten_cons, nonSpace_space_cons] using ih
    · cases hsplit : jsSplitCh ' ' cs with
      | nil => exact absurd hsplit (jsSplit_ne_nil ' ' cs)
      | cons wh wt =>
        rw [hsplit] at ih
        simp only [List.flatten_cons] at ih ⊢
        simp only [nonSpace, List.filter_cons, List.filter_append] at ih ⊢
        by_cases hpc : (!isJsSpace c) = true
        · rw [if_pos hpc, if_pos hpc, List.cons_append, ih]
        · rw [if_neg hpc, if_neg hpc, ih]

/-- Counterexample for **C6** as stated: wrapping `"a b"` at width 2 yields
`["a", "b"]`; the space character of the input appears in no returned line,
so not *every* character of the input survives. -/
theorem C6_counterexample :
    wordWrap "a b".data 2 = [['a'], ['b']] ∧
    ' ' ∈ "a b".data ∧
    ' ' ∉ (wordWrap "a b".data 2).flatten := by
  refine ⟨by decide, by decide, by decide⟩

/-- **C6 (amended).** For every text and every `maxWidth > 0`, `wordWrap`
never drops *non-whitespace* characters: the concatenation of the returned
lines contains exactly the non-whitespace characters of the input, in order
(whitespace may be dropped: line breaks consume the separating spaces, and
`trim` removes whitespace adjacent to line boundaries). -/
theorem C6_no_nonspace_dropped (text : Str) (maxWidth : Nat)
    (h : 0 < maxWidth) :
    nonSpace (wordWrap text maxWidth).flatten = nonSpace text := by
  unfold wordWrap
  by_cases hlen : text.length ≤ maxWidth
  · rw [if_pos hlen]
    simp
  · rw [if_neg hlen]
    have hinv := foldl_processWord_inv maxWidth (jsSplitCh ' ' text) ([], [])
    simp only [List.flatten_nil, nonSpace_nil, List.nil_append] at hinv
    rw [nonSpace_jsSplit] at hinv
    set st := (jsSplitCh ' ' text).foldl (processWord maxWidth) ([], [])
      with hst
    by_cases hne : st.2 ≠ []
    · rw [if_pos hne]
      simp only [List.flatten_append, List.flatten_cons, List.flatten_nil,
        List.append_nil, nonSpace_append, nonSpace_trim]
      rw [← nonSpace_append, hinv]
    · rw [if_neg hne]
      simp only [ne_eq, not_not] at hne
      rw [hne, List.append_nil] at hinv
      exact hinv

/-- Witness for C6: the amended preservation applied to the spec's own
word-wrap example. -/
theorem C6_witness :
    0 < 10 ∧
    nonSpace (wordWrap "hello world foo bar".data 10).flatten =
      nonSpace "hello world foo bar".data :=
  ⟨by decide, C6_no_nonspace_dropped "hello world foo bar".data 10 (by decide)⟩
